import Mathlib

/-!
Shallow embedding of the kanuni-cli real-time session layer and credential
lifecycle manager, translated from the Rust sources:

  src/auth/models.rs, src/auth/token_store.rs, src/auth/mod.rs
  src/api/websocket.rs, src/api/progress.rs

Conventions of the embedding:
  * `Uuid` is modelled as `Nat` (an opaque identifier).
  * `chrono::DateTime<Utc>` instants are modelled as `Int` seconds;
    `chrono::Duration::minutes 5` becomes the literal `5 * 60`.
  * `anyhow::Result<T>` becomes `Except String T`, carrying the context
    message the Rust code attaches (apostrophes elided from messages).
  * Channel sends over `tokio::sync::mpsc` unbounded channels are modelled
    as appending the sent value to a trace list; a send succeeds whenever
    the sender half exists, which matches the code in every reachable state
    the claims quantify over (the receiver lives as long as the handler task).
  * File-system state (the credential file) is a field `disk`.
-/

namespace Kanuni

/-- Identifier type standing for `uuid::Uuid`. -/
abbrev Uuid := Nat

/-- Instant type standing for `chrono::DateTime<Utc>`, in whole seconds. -/
abbrev Instant := Int

/-! Embedding: src/auth/models.rs -/

/-- Translated from `UserInfo` in src/auth/models.rs. -/
structure UserInfo where
  id : String
  email : String
  first_name : Option String
  last_name : Option String
  email_verified : Bool
  subscription_tier : Option String
  mfa_enabled : Bool
deriving DecidableEq

/-- Translated from `RefreshRequest` in src/auth/models.rs. -/
structure RefreshRequest where
  refresh_token : String
deriving DecidableEq

/-- Translated from `RefreshResponse` in src/auth/models.rs.  The struct has
exactly the fields `user`, `access_token`, `expires_in`; in particular it has
NO `refresh_token` field. -/
structure RefreshResponse where
  user : UserInfo
  access_token : String
  expires_in : Int
deriving DecidableEq

/-- The JSON body the auth endpoint may put on the wire for a refresh call.
It carries the fields of `RefreshResponse` plus an optional `refresh_token`
field that a server may or may not include.  `RefreshResponse` derives
`serde::Deserialize` without `deny_unknown_fields`, so decoding such a body
succeeds and silently drops any `refresh_token`; `decodeRefreshResponse`
below is that derived decoder restricted to these fields. -/
structure WireRefreshResponse where
  user : UserInfo
  access_token : String
  expires_in : Int
  refresh_token : Option String
deriving DecidableEq

/-- The serde-derived decode of a refresh body into `RefreshResponse`:
unknown fields (here the optional `refresh_token`) are ignored. -/
def decodeRefreshResponse (w : WireRefreshResponse) : RefreshResponse :=
  { user := w.user, access_token := w.access_token, expires_in := w.expires_in }

/-! Embedding: src/auth/token_store.rs -/

/-- Translated from `AuthType` in src/auth/token_store.rs.  The `ApiKey`
field named `prefix` in Rust is rendered `key_prefix` here. -/
inductive AuthType where
  | OAuth (access_token : String) (refresh_token : String) (expires_at : Instant)
  | ApiKey (key : String) (name : String) ( key_prefix : String) (last_4 : String)
deriving DecidableEq

/-- Translated from `StoredCredentials` in src/auth/token_store.rs. -/
structure StoredCredentials where
  auth_type : AuthType
  user_id : Option Uuid
  email : Option String
  created_at : Instant
  updated_at : Instant
deriving DecidableEq

/-- Translated from `TokenStore::update_oauth_tokens` in
src/auth/token_store.rs.  `disk` is the current content of the credential
file (`None` when the file is absent); `now` models the `Utc::now()` used
for `updated_at`.  On success the new file content is returned; on failure
the file is untouched. -/
def TokenStore.update_oauth_tokens (disk : Option StoredCredentials)
    (access_token refresh_token : String) (expires_at : Instant) (now : Instant) :
    Except String (Option StoredCredentials) :=
  match disk with
  | none => .error "No credentials to update"
  | some credentials =>
    match credentials.auth_type with
    | .OAuth _ _ _ =>
      .ok (some { credentials with
                    auth_type := .OAuth access_token refresh_token expires_at,
                    updated_at := now })
    | .ApiKey _ _ _ _ => .error "Cannot update OAuth tokens for API key auth"

/-! Embedding: src/auth/mod.rs, `AuthManager::get_access_token` (sequential run)

The manager state visible to `get_access_token` is the in-memory cached
credential (`credentials: Arc<RwLock<Option<StoredCredentials>>>`) plus the
credential file the `TokenStore` reads and writes. -/

/-- In-memory cache plus on-disk credential file of `AuthManager`. -/
structure AuthState where
  mem : Option StoredCredentials
  disk : Option StoredCredentials
deriving DecidableEq

/-- Translated from `AuthManager::get_access_token` in src/auth/mod.rs,
run by a single caller with no interleaving.  `server` models
`AuthClient::refresh_token`: the outcome of the refresh HTTP call for a given
request.  `now` models `Utc::now()`.  Returns the result together with the
manager state after the call. -/
def get_access_token (server : RefreshRequest → Except String WireRefreshResponse)
    (now : Instant) (s : AuthState) : Except String String × AuthState :=
  match s.mem with
  | none => (.error "Not authenticated. Please run kanuni auth login", s)
  | some credentials =>
    match credentials.auth_type with
    | .ApiKey key _ _ _ => (.ok key, s)
    | .OAuth access_token refresh_token expires_at =>
      if expires_at > now + 5 * 60 then
        (.ok access_token, s)
      else
        match server { refresh_token := refresh_token } with
        | .error _ => (.error "Failed to refresh token. Please login again.", s)
        | .ok wire =>
          let response := decodeRefreshResponse wire
          let new_expires_at := now + response.expires_in
          match TokenStore.update_oauth_tokens s.disk response.access_token
              refresh_token new_expires_at now with
          | .error e => (.error e, s)
          | .ok disk2 => (.ok response.access_token, { mem := disk2, disk := disk2 })

/-! Embedding: src/api/progress.rs, data model -/

/-- Translated from `ChannelType` in src/api/progress.rs. -/
inductive ChannelType where
  | Upload
  | Analysis
  | Batch
  | User
deriving DecidableEq

/-- Translated from `AnalysisStage` in src/api/progress.rs. -/
inductive AnalysisStage where
  | Queued
  | Starting
  | ExtractingText
  | ChunkingText
  | GeneratingEmbeddings
  | AnalyzingContent
  | Finalizing
  | Completed
deriving DecidableEq

/-- A stand-in for `serde_json::Value` payload details that the claims never
inspect (kept abstractly as its rendered text). -/
structure JsonValue where
  rendered : String
deriving DecidableEq

/-- Translated from `UploadProgressEvent` in src/api/progress.rs. -/
structure UploadProgressEvent where
  document_id : Uuid
  file_name : String
  bytes_uploaded : Nat
  total_bytes : Nat
  progress : Nat
  message : String
deriving DecidableEq

/-- Translated from `AnalysisProgressEvent` in src/api/progress.rs. -/
structure AnalysisProgressEvent where
  analysis_id : Uuid
  document_id : Uuid
  stage : AnalysisStage
  progress : Nat
  message : String
  details : Option JsonValue
deriving DecidableEq

/-- Translated from `FileStatus` in src/api/progress.rs. -/
inductive FileStatus where
  | Pending
  | Uploading
  | Processing
  | Completed
  | Failed
deriving DecidableEq

/-- Translated from `FileProgress` in src/api/progress.rs. -/
structure FileProgress where
  document_id : Uuid
  file_name : String
  status : FileStatus
  progress : Nat
  message : String
deriving DecidableEq

/-- Translated from `BatchProgressEvent` in src/api/progress.rs; the
`file_progress` HashMap is modelled as an association list. -/
structure BatchProgressEvent where
  batch_id : Uuid
  total_files : Nat
  completed_files : Nat
  current_file : Option String
  overall_progress : Nat
  file_progress : List (Uuid × FileProgress)
deriving DecidableEq

/-- Translated from `ErrorType` in src/api/progress.rs. -/
inductive ErrorType where
  | Upload
  | Analysis
  | System
  | Network
deriving DecidableEq

/-- Translated from `ErrorEvent` in src/api/progress.rs. -/
structure ErrorEvent where
  id : Uuid
  error_type : ErrorType
  message : String
  details : Option JsonValue
deriving DecidableEq

/-- Translated from `CompleteEventType` in src/api/progress.rs. -/
inductive CompleteEventType where
  | Upload
  | Analysis
  | Batch
deriving DecidableEq

/-- Translated from `CompleteEvent` in src/api/progress.rs. -/
structure CompleteEvent where
  id : Uuid
  event_type : CompleteEventType
  message : String
  result : Option JsonValue
deriving DecidableEq

/-- Translated from `ProgressEvent` in src/api/progress.rs. -/
inductive ProgressEvent where
  | Upload (e : UploadProgressEvent)
  | Analysis (e : AnalysisProgressEvent)
  | Batch (e : BatchProgressEvent)
  | Error (e : ErrorEvent)
  | Complete (e : CompleteEvent)
deriving DecidableEq

/-! Embedding: src/api/websocket.rs -/

/-- Translated from `WebSocketConfig` in src/api/websocket.rs. -/
structure WebSocketConfig where
  url : String
  reconnect_max_attempts : Nat
  reconnect_delay_ms : Nat
  ping_interval_secs : Nat
deriving DecidableEq

/-- Translated from `impl Default for WebSocketConfig`. -/
def WebSocketConfig.default : WebSocketConfig :=
  { url := "ws://localhost:8080/api/v1/ws",
    reconnect_max_attempts := 5,
    reconnect_delay_ms := 1000,
    ping_interval_secs := 30 }

/-- Translated from `ClientMessage` in src/api/websocket.rs. -/
inductive ClientMessage where
  | Subscribe (channel_type : ChannelType) (id : Uuid)
  | Unsubscribe (channel_type : ChannelType) (id : Uuid)
  | Ping
deriving DecidableEq

/-- Translated from `ServerMessageType` in src/api/websocket.rs. -/
inductive ServerMessageType where
  | Connected
  | Subscribed
  | Unsubscribed
  | Progress
  | Error
  | Pong
deriving DecidableEq

/-- Translated from `WebSocketMessage` in src/api/websocket.rs (the payload
decoded from a `Progress` frame's `data` field). -/
structure WebSocketMessage where
  id : Uuid
  event : ProgressEvent
  user_id : Uuid
  sequence : Nat
deriving DecidableEq

/-- Translated from `ServerMessage` in src/api/websocket.rs.  `data` is a
`serde_json::Value` in the source; the message handler only ever asks one
question of it — does `serde_json::from_value::<WebSocketMessage>` succeed,
and with which result — so the embedding carries that decode outcome
directly as an `Option WebSocketMessage`. -/
structure ServerMessage where
  message_type : ServerMessageType
  data : Option WebSocketMessage
  timestamp : Instant
deriving DecidableEq

/-- The mutable state of `ProgressWebSocket` that subscribe / unsubscribe /
resubscribe / connect touch.  `command_sender` records whether the
`Option<mpsc::UnboundedSender<ClientMessage>>` field is `Some`; `sent` is
the trace of commands pushed through it; `subscriptions` is the registry
`Arc<RwLock<Vec<(ChannelType, Uuid)>>>`; `is_connected` the
`Arc<RwLock<bool>>`. -/
structure WsState where
  command_sender : Bool
  sent : List ClientMessage
  subscriptions : List (ChannelType × Uuid)
  is_connected : Bool
deriving DecidableEq

/-- Translated from `ProgressWebSocket::new`: no sender, empty registry,
not connected (no commands sent yet). -/
def ProgressWebSocket.new : WsState :=
  { command_sender := false, sent := [], subscriptions := [], is_connected := false }

/-- The body of the `for` loop of `ProgressWebSocket::resubscribe`: for each
registry entry, if the command sender exists, send a `Subscribe` command. -/
def resubscribeLoop (sender : Bool) (sent : List ClientMessage) :
    List (ChannelType × Uuid) → List ClientMessage
  | [] => sent
  | p :: rest =>
    resubscribeLoop sender
      (if sender then sent ++ [ClientMessage.Subscribe p.1 p.2] else sent) rest

/-- Translated from `ProgressWebSocket::resubscribe` in src/api/websocket.rs:
clone the registry under the read lock, then replay each entry as a
`Subscribe` command through the command sender if one exists. -/
def ProgressWebSocket.resubscribe (s : WsState) : WsState :=
  { s with sent := resubscribeLoop s.command_sender s.sent s.subscriptions }

/-- Translated from `ProgressWebSocket::connect` in src/api/websocket.rs.
`connectOk` models the outcome of `connect_async` (the network handshake).
On success the code stores the stream, sets `is_connected`, installs a fresh
command sender, spawns the handler and ping tasks, and calls `resubscribe`. -/
def ProgressWebSocket.connect (connectOk : Bool) (s : WsState) :
    Except String WsState :=
  if connectOk then
    .ok (ProgressWebSocket.resubscribe
          { s with is_connected := true, command_sender := true })
  else .error "connect failed"

/-- Translated from `ProgressWebSocket::subscribe` in src/api/websocket.rs:
if not connected, first run `connect` (failure propagates); then, if the
command sender exists, send a `Subscribe` command and PUSH the pair onto the
registry unconditionally; otherwise fail with a not-connected error. -/
def ProgressWebSocket.subscribe (connectOk : Bool) (s : WsState)
    (channel_type : ChannelType) (id : Uuid) : Except String WsState :=
  match (if s.is_connected then .ok s else ProgressWebSocket.connect connectOk s : Except String WsState) with
  | .error e => .error e
  | .ok s1 =>
    if s1.command_sender then
      .ok { s1 with
              sent := s1.sent ++ [ClientMessage.Subscribe channel_type id],
              subscriptions := s1.subscriptions ++ [(channel_type, id)] }
    else .error "WebSocket not connected"

/-- Translated from `ProgressWebSocket::unsubscribe` in src/api/websocket.rs:
if the command sender exists, send an `Unsubscribe` command and `retain` in
the registry every pair whose channel type or id differs; with no sender the
whole body is skipped and `Ok(())` is returned. -/
def ProgressWebSocket.unsubscribe (s : WsState)
    (channel_type : ChannelType) (id : Uuid) : WsState :=
  if s.command_sender then
    { s with
        sent := s.sent ++ [ClientMessage.Unsubscribe channel_type id],
        subscriptions :=
          s.subscriptions.filter (fun p => p.1 ≠ channel_type ∨ p.2 ≠ id) }
  else s

/-- Translated from `ProgressWebSocket::disconnect` in src/api/websocket.rs:
flip `is_connected` off, close and drop the stream, drop the command sender. -/
def ProgressWebSocket.disconnect (s : WsState) : WsState :=
  { s with is_connected := false, command_sender := false }

/-- Translated from the `loop` of `ProgressWebSocket::handle_reconnect` in
src/api/websocket.rs.  `connectOk n` is the outcome of the `self.connect()`
call made as attempt number `n` (attempts are numbered from 1, the counter
being incremented before the call).  Besides the `Result`, the run returns
the trace of sleep durations (milliseconds) performed between attempts —
the code sleeps `backoff.initial_interval * attempts` after a failed attempt
when further attempts remain.  The `ExponentialBackoff` value built at the
top of the function contributes only its `initial_interval` (the configured
`reconnect_delay_ms`); its schedule and its 60-second `max_elapsed_time`
are never consulted. -/
def handleReconnectLoop (connectOk : Nat → Bool) (maxAttempts delay_ms : Nat) :
    Nat → Nat → List Nat → Except String Nat × List Nat
  | 0, _, sleeps => (.error "Max reconnection attempts reached", sleeps)
  | remaining + 1, attempts, sleeps =>
    let attempts1 := attempts + 1
    if connectOk attempts1 then
      (.ok attempts1, sleeps)
    else
      handleReconnectLoop connectOk maxAttempts delay_ms remaining attempts1
        (if attempts1 < maxAttempts then sleeps ++ [delay_ms * attempts1] else sleeps)

/-- Translated from `ProgressWebSocket::handle_reconnect`: run the retry loop
from `attempts = 0` with the configured maximum and initial delay.  The
source checks `attempts >= reconnect_max_attempts` at the top of each
iteration; since `attempts` only ever increments by one, that check is
equivalently carried here as the structural counter
`remaining = maxAttempts - attempts`, starting at `maxAttempts`. -/
def ProgressWebSocket.handle_reconnect (config : WebSocketConfig)
    (connectOk : Nat → Bool) : Except String Nat × List Nat :=
  handleReconnectLoop connectOk config.reconnect_max_attempts
    config.reconnect_delay_ms config.reconnect_max_attempts 0 []

/-! Embedding: src/api/websocket.rs, `spawn_message_handler` (inbound arm)

The handler task loops over a `tokio::select!`; the inbound arm matches the
next frame of the socket.  An inbound text frame is first parsed as
`ServerMessage` (`serde_json::from_str`); failure silently falls through.
A parsed `Progress` message has its `data` decoded as `WebSocketMessage`
(`serde_json::from_value`); on success the inner event is forwarded on the
event channel.  `Error` is logged; every other discriminator is only
debug-logged.  `Close` frames, read errors and end-of-stream flip
`is_connected` off and `break` the loop; other frame kinds fall through. -/

/-- One inbound observation of the handler loop.  `text none` is a text
frame that fails to parse as `ServerMessage` (malformed JSON); `text (some m)`
a text frame that parses to `m`; `close` a `Message::Close`; `wsError` a
read error; `streamEnd` an exhausted stream; `other` any remaining frame
kind (binary, low-level ping/pong), matched by the final `_ => {}` arm. -/
inductive InboundFrame where
  | text (parsed : Option ServerMessage)
  | close
  | wsError
  | streamEnd
  | other
deriving DecidableEq

/-- Whether the handler loop continues after a frame. -/
inductive LoopAction where
  | cont
  | brk
deriving DecidableEq

/-- Translated from the inbound-message `match` of `spawn_message_handler`:
the event (if any) forwarded to the event channel, whether the loop
continues, and the value `is_connected` is set to (it is written only on
the breaking arms). -/
def handle_frame (connected : Bool) (f : InboundFrame) :
    Option ProgressEvent × LoopAction × Bool :=
  match f with
  | .text none => (none, .cont, connected)
  | .text (some m) =>
    match m.message_type with
    | .Progress =>
      match m.data with
      | some ws_msg => (some ws_msg.event, .cont, connected)
      | none => (none, .cont, connected)
    | _ => (none, .cont, connected)
  | .close => (none, .brk, false)
  | .wsError => (none, .brk, false)
  | .streamEnd => (none, .brk, false)
  | .other => (none, .cont, connected)

/-- The handler loop over a sequence of inbound frames: the list of events
forwarded to the event channel, in order, together with the final
`is_connected` flag, stopping at the first breaking frame. -/
def message_loop (connected : Bool) : List InboundFrame → List ProgressEvent × Bool
  | [] => ([], connected)
  | f :: rest =>
    match handle_frame connected f with
    | (e, .cont, c) =>
      let r := message_loop c rest
      (e.toList ++ r.1, r.2)
    | (e, .brk, c) => (e.toList, c)

/-! Embedding: src/api/progress.rs, `ProgressTracker` -/

/-- The id extraction at the top of the `while` loop of
`ProgressTracker::process_events`. -/
def ProgressEvent.correlationId : ProgressEvent → Uuid
  | .Upload e => e.document_id
  | .Analysis e => e.analysis_id
  | .Batch e => e.batch_id
  | .Error e => e.id
  | .Complete e => e.id

/-- The `matches!(&event, ProgressEvent::Complete(_) | ProgressEvent::Error(_))`
test of `ProgressTracker::process_events`. -/
def ProgressEvent.isTerminal : ProgressEvent → Bool
  | .Complete _ => true
  | .Error _ => true
  | _ => false

/-- The mutable state of `ProgressTracker`: the per-entity event log
(`events: Arc<RwLock<HashMap<Uuid, Vec<ProgressEvent>>>>`, modelled as a
total function defaulting to the empty list), the active-subscription map
(`active_subscriptions: Arc<RwLock<HashMap<Uuid, ChannelType>>>`), and the
owned `ProgressWebSocket`. -/
structure TrackerState where
  events : Uuid → List ProgressEvent
  active_subscriptions : Uuid → Option ChannelType
  ws : WsState

/-- Translated from `ProgressTracker::new`: empty event log, empty active
set, a fresh `ProgressWebSocket`. -/
def ProgressTracker.new : TrackerState :=
  { events := fun _ => [],
    active_subscriptions := fun _ => none,
    ws := ProgressWebSocket.new }

/-- Translated from `ProgressTracker::get_events`: the stored list for `id`,
or the empty list when no entry exists (`unwrap_or_default`). -/
def ProgressTracker.get_events (s : TrackerState) (id : Uuid) : List ProgressEvent :=
  s.events id

/-- Translated from `ProgressTracker::get_latest_event`: the last stored
event for `id`, if any (`and_then(|e| e.last().cloned())`). -/
def ProgressTracker.get_latest_event (s : TrackerState) (id : Uuid) :
    Option ProgressEvent :=
  (s.events id).getLast?

/-- Translated from one iteration of the `while let` loop of
`ProgressTracker::process_events`: extract the correlating id and append
the event to that id's log entry.  For a `Complete` or `Error` event whose
id is in the active set the cleanup block then runs:
`ws.unsubscribe(channel_type.clone(), id)` is awaited and sends the
`Unsubscribe` command, but the next statement,
`self.active_subscriptions.write().await.remove(&id)`, never completes —
the `if let` scrutinee `self.active_subscriptions.read().await.get(&id)`
creates a `RwLockReadGuard` temporary whose lifetime extends to the end of
the whole `if let` statement (the bound `channel_type` borrows from it), so
the same task awaits a write lock on the very `tokio::sync::RwLock` it
still holds a read guard on, a self-deadlock.  The removal therefore never
executes and the loop never reaches the next event.  The returned flag says
whether the loop continues: `false` exactly on this deadlock, where the
state reached has the event stored, the `Unsubscribe` sent, and the active
set UNCHANGED. -/
def ProgressTracker.process_one (s : TrackerState) (event : ProgressEvent) :
    TrackerState × Bool :=
  let id := event.correlationId
  let s1 : TrackerState :=
    { s with events := fun j => if j = id then s.events j ++ [event] else s.events j }
  if event.isTerminal then
    match s1.active_subscriptions id with
    | some channel_type =>
      ({ s1 with ws := ProgressWebSocket.unsubscribe s1.ws channel_type id }, false)
    | none => (s1, true)
  else (s1, true)

/-- Outcome of the processing loop over delivered events: either every
event was drained (`deadlocked = false`, `pending = []`), or the loop hit
the cleanup self-deadlock of `ProgressTracker.process_one` and `pending`
holds the delivered events it never processed.  In the deadlocked state the
stuck task still holds the `events` write guard it took to store the
terminal event (the `events` binding lives to the end of the loop body)
and the tracker-wide websocket write lock, so `get_events` /
`get_latest_event` / `track_*` calls made after the deadlock block forever;
the `state` field records the last state the data reached. -/
structure ProcessRun where
  state : TrackerState
  pending : List ProgressEvent
  deadlocked : Bool

/-- Translated from `ProgressTracker::process_events` run over the sequence
of events the websocket event channel delivers, stopping at the cleanup
self-deadlock described on `ProgressTracker.process_one`. -/
def ProgressTracker.process_events (s : TrackerState) :
    List ProgressEvent → ProcessRun
  | [] => { state := s, pending := [], deadlocked := false }
  | e :: rest =>
    match ProgressTracker.process_one s e with
    | (s1, true) => ProgressTracker.process_events s1 rest
    | (s1, false) => { state := s1, pending := rest, deadlocked := true }

/-- A tracker state with one active analysis subscription for entity id 1,
as `track_analysis 1` leaves it after a successful subscribe on a connected
websocket (command traces elided). -/
def trackedTracker : TrackerState :=
  { events := fun _ => [],
    active_subscriptions := fun j => if j = 1 then some ChannelType.Analysis else none,
    ws := { command_sender := true, sent := [],
            subscriptions := [(ChannelType.Analysis, 1)], is_connected := true } }

/-- Delivered event: analysis 1 queued. -/
def analysisQueued1 : ProgressEvent :=
  .Analysis { analysis_id := 1, document_id := 10, stage := .Queued,
              progress := 0, message := "queued", details := none }

/-- Delivered event: analysis 1 extracting text. -/
def analysisExtracting1 : ProgressEvent :=
  .Analysis { analysis_id := 1, document_id := 10, stage := .ExtractingText,
              progress := 20, message := "extracting", details := none }

/-- Delivered event: analysis 1 complete (a terminal event). -/
def completeEvent1 : ProgressEvent :=
  .Complete { id := 1, event_type := .Analysis, message := "done", result := none }

/-- Delivered event: an upload event for a different entity, id 2. -/
def uploadEvent2 : ProgressEvent :=
  .Upload { document_id := 2, file_name := "f", bytes_uploaded := 1,
            total_bytes := 2, progress := 50, message := "uploading" }

/-! Embedding: Interleaved executions of `AuthManager::get_access_token`

`get_access_token` holds the credentials read lock only while inspecting the
cached credential: the code explicitly runs `drop(credentials_guard)` before
the refresh HTTP call, and reacquires a write lock only afterwards.  The
await/lock boundaries therefore cut one call into three atomic phases:

  1. `start`     — read the cached credential under the read lock and decide
                   (not authenticated / api key / still valid / must refresh);
  2. `doRefresh` — issue the refresh HTTP request with the captured refresh
                   token and observe its outcome;
  3. `store`     — persist the refreshed credential to disk and reload it
                   into the cache under the write lock.

A concurrent execution of several callers is a schedule: a list of caller
indices, each step running the named caller's next phase atomically.
`refreshLog` records the refresh token of every refresh request issued, in
order, so its length is the number of refresh calls made to the auth
endpoint.  The server is modelled as a function from the request number
(position in `refreshLog`) and request to an outcome. -/

instance {ε α : Type} [DecidableEq ε] [DecidableEq α] : DecidableEq (Except ε α) :=
  fun a b =>
    match a, b with
    | .error e, .error f =>
      if h : e = f then .isTrue (by rw [h]) else .isFalse (by intro hh; cases hh; exact h rfl)
    | .error _, .ok _ => .isFalse (by intro hh; cases hh)
    | .ok _, .error _ => .isFalse (by intro hh; cases hh)
    | .ok x, .ok y =>
      if h : x = y then .isTrue (by rw [h]) else .isFalse (by intro hh; cases hh; exact h rfl)

/-- The program counter of one `get_access_token` caller. -/
inductive CallerPc where
  | start
  | doRefresh (refresh_token : String)
  | store (refresh_token : String) (response : RefreshResponse)
  | done (result : Except String String)
deriving DecidableEq

/-- Shared state of an interleaved execution: the `AuthManager` state plus
the trace of refresh requests issued to the auth endpoint. -/
structure SharedState where
  auth : AuthState
  refreshLog : List String
deriving DecidableEq

/-- One atomic phase of one caller of `get_access_token`, translated from
src/auth/mod.rs as cut at its lock/await boundaries (see above). -/
def callerStep (server : Nat → RefreshRequest → Except String WireRefreshResponse)
    (now : Instant) (sh : SharedState) (pc : CallerPc) : SharedState × CallerPc :=
  match pc with
  | .start =>
    match sh.auth.mem with
    | none => (sh, .done (.error "Not authenticated. Please run kanuni auth login"))
    | some credentials =>
      match credentials.auth_type with
      | .ApiKey key _ _ _ => (sh, .done (.ok key))
      | .OAuth access_token refresh_token expires_at =>
        if expires_at > now + 5 * 60 then (sh, .done (.ok access_token))
        else (sh, .doRefresh refresh_token)
  | .doRefresh refresh_token =>
    let n := sh.refreshLog.length
    let sh1 : SharedState := { sh with refreshLog := sh.refreshLog ++ [refresh_token] }
    match server n { refresh_token := refresh_token } with
    | .error _ => (sh1, .done (.error "Failed to refresh token. Please login again."))
    | .ok wire => (sh1, .store refresh_token (decodeRefreshResponse wire))
  | .store refresh_token response =>
    match TokenStore.update_oauth_tokens sh.auth.disk response.access_token
        refresh_token (now + response.expires_in) now with
    | .error e => (sh, .done (.error e))
    | .ok disk2 => ({ sh with auth := { mem := disk2, disk := disk2 } },
                    .done (.ok response.access_token))
  | .done r => (sh, .done r)

/-- Run a schedule: each entry names the caller whose next phase runs;
an index with no caller, or a finished caller, leaves the state unchanged. -/
def runSched (server : Nat → RefreshRequest → Except String WireRefreshResponse)
    (now : Instant) :
    List Nat → SharedState × List CallerPc → SharedState × List CallerPc
  | [], st => st
  | i :: rest, (sh, pcs) =>
    match pcs[i]? with
    | none => runSched server now rest (sh, pcs)
    | some pc =>
      let step := callerStep server now sh pc
      runSched server now rest (step.1, pcs.set i step.2)

/-- Number of refresh requests a caller in this phase may still issue:
`start` and `doRefresh` have the (at most one) request of this call still
ahead or in hand; `store` and `done` are past it. -/
def CallerPc.pendingWeight : CallerPc → Nat
  | .start => 1
  | .doRefresh _ => 1
  | .store _ _ => 0
  | .done _ => 0

/-! Embedding: Sequences of subscribe / unsubscribe calls -/

/-- One externally issued call on the stream connection. -/
inductive SubOp where
  | sub (channel_type : ChannelType) (id : Uuid)
  | unsub (channel_type : ChannelType) (id : Uuid)
deriving DecidableEq

/-- Run a sequence of subscribe / unsubscribe calls against the websocket
state; a failing subscribe aborts the run with its error, mirroring `?`
propagation at the caller. -/
def runOps (connectOk : Bool) : WsState → List SubOp → Except String WsState
  | s, [] => .ok s
  | s, SubOp.sub ct id :: rest =>
    match ProgressWebSocket.subscribe connectOk s ct id with
    | .error e => .error e
    | .ok s1 => runOps connectOk s1 rest
  | s, SubOp.unsub ct id :: rest =>
    runOps connectOk (ProgressWebSocket.unsubscribe s ct id) rest

/-- Modelled from the spec sentence it is compared against: a pair is
still active after a sequence of calls when the last of subscribe /
unsubscribe to name it was a subscribe (`init` says whether it was active
before the sequence).  This is the spec-side comparator, not source code. -/
def specActiveAfter (p : ChannelType × Uuid) (init : Bool) : List SubOp → Bool
  | [] => init
  | SubOp.sub ct id :: rest =>
    specActiveAfter p (if (ct, id) = p then true else init) rest
  | SubOp.unsub ct id :: rest =>
    specActiveAfter p (if (ct, id) = p then false else init) rest

/-! # Theorems -/

/-- Claim C2: the reconnection loop does stop after the configured maximum
number of attempts (default 5) with a fatal error, but the delay before the
retry after failed attempt `n` is `n * reconnect_delay_ms` — arithmetic, not
geometric, growth — and the 60-second elapsed-time ceiling is never
enforced: it lives only on the `ExponentialBackoff` value whose schedule the
loop never consults.  With the default config and every attempt failing the
sleeps are 1000, 2000, 3000, 4000 ms (a geometric schedule from 1000 ms
would be 1000, 2000, 4000, 8000), and with a 30000 ms configured delay the
total sleep is 300000 ms, exceeding the 60 s ceiling by far more than one
attempt's delay. -/
theorem handle_reconnect_linear_delays_no_ceiling :
    ProgressWebSocket.handle_reconnect WebSocketConfig.default (fun _ => false)
      = (Except.error "Max reconnection attempts reached", [1000, 2000, 3000, 4000])
    ∧ [1000, 2000, 3000, 4000] ≠ [1000, 2000, 4000, 8000]
    ∧ (ProgressWebSocket.handle_reconnect
        { WebSocketConfig.default with reconnect_delay_ms := 30000 }
        (fun _ => false)).2.sum = 300000
    ∧ 60000 + 4 * 30000 < 300000 := by
  exact ⟨rfl, by decide, rfl, by decide⟩

/-- Claim C10: calling `unsubscribe` while no command sender exists leaves
the whole websocket state unchanged (so nothing is sent and the registry —
including any registered pair — is untouched), and the source returns
`Ok(())` on this path, which the total return type of the model encodes. -/
theorem unsubscribe_without_sender_noop (s : WsState) (ct : ChannelType)
    (id : Uuid) (h : s.command_sender = false) :
    ProgressWebSocket.unsubscribe s ct id = s := by
  simp [ProgressWebSocket.unsubscribe, h]

/-- Witness for `unsubscribe_without_sender_noop` at a state holding one
registered pair. -/
theorem unsubscribe_without_sender_noop_witness :
    WsState.command_sender ⟨false, [], [(ChannelType.Upload, 7)], false⟩ = false
    ∧ ProgressWebSocket.unsubscribe ⟨false, [], [(ChannelType.Upload, 7)], false⟩
        ChannelType.Upload 7
      = ⟨false, [], [(ChannelType.Upload, 7)], false⟩ :=
  ⟨rfl, unsubscribe_without_sender_noop ⟨false, [], [(ChannelType.Upload, 7)], false⟩
    ChannelType.Upload 7 rfl⟩

/-- Claim C7: when the cached credential is an OAuth credential at or past
the 5-minute margin and the refresh call fails, `get_access_token` returns
the authentication failure telling the user to log in again, and the
returned state is exactly the input state: neither the in-memory cache nor
the credential file is touched. -/
theorem refresh_failure_preserves_state
    (server : RefreshRequest → Except String WireRefreshResponse)
    (now : Instant) (s : AuthState) (creds : StoredCredentials)
    (a rt : String) (exp : Instant) (msg : String)
    (hm : s.mem = some creds)
    (hauth : creds.auth_type = AuthType.OAuth a rt exp)
    (hexp : ¬ exp > now + 5 * 60)
    (hsrv : server { refresh_token := rt } = .error msg) :
    get_access_token server now s
      = (.error "Failed to refresh token. Please login again.", s) := by
  simp only [get_access_token, hm, hauth]
  rw [if_neg hexp]
  simp [hsrv]

/-- Witness for `refresh_failure_preserves_state`: an expired OAuth
credential and a refresh endpoint that rejects the refresh token. -/
theorem refresh_failure_preserves_state_witness :
    get_access_token (fun _ => Except.error "invalid refresh token") 1000
        ⟨some ⟨AuthType.OAuth "a0" "r0" 0, none, none, 0, 0⟩,
         some ⟨AuthType.OAuth "a0" "r0" 0, none, none, 0, 0⟩⟩
      = (.error "Failed to refresh token. Please login again.",
         ⟨some ⟨AuthType.OAuth "a0" "r0" 0, none, none, 0, 0⟩,
          some ⟨AuthType.OAuth "a0" "r0" 0, none, none, 0, 0⟩⟩) :=
  refresh_failure_preserves_state (fun _ => Except.error "invalid refresh token")
    1000 _ _ "a0" "r0" 0 "invalid refresh token" rfl rfl (by decide) rfl

/-- Claim C4 counterexample: the auth endpoint answers the refresh call with
a body that does provide a new refresh token `r1`, yet the credential
persisted to disk carries the prior refresh token `r0` — `RefreshResponse`
has no refresh-token field, so the serde decode silently drops the provided
one and `get_access_token` always passes the old token to the store. -/
theorem refresh_ignores_server_refresh_token :
    (get_access_token
        (fun _ => Except.ok ⟨⟨"u", "e", none, none, false, none, false⟩,
                             "a1", 3600, some "r1"⟩)
        1000
        ⟨some ⟨AuthType.OAuth "a0" "r0" 0, none, none, 0, 0⟩,
         some ⟨AuthType.OAuth "a0" "r0" 0, none, none, 0, 0⟩⟩).2.disk
      = some ⟨AuthType.OAuth "a1" "r0" 4600, none, none, 0, 1000⟩
    ∧ (WireRefreshResponse.refresh_token
        ⟨⟨"u", "e", none, none, false, none, false⟩, "a1", 3600, some "r1"⟩)
      = some "r1"
    ∧ "r0" ≠ "r1" := by
  exact ⟨rfl, rfl, by decide⟩

/-- Claim C4 (amended): a refreshed credential always reuses the prior
refresh token — the decoded `RefreshResponse` cannot carry one, so any
refresh token the response body provides is discarded — while the new
access token and the new expiry are persisted, and the in-memory cache and
the disk file are set to the same single updated record. -/
theorem refresh_reuses_prior_refresh_token
    (server : RefreshRequest → Except String WireRefreshResponse)
    (now : Instant) (s : AuthState) (creds dcreds : StoredCredentials)
    (a rt da drt : String) (exp dexp : Instant) (wire : WireRefreshResponse)
    (hm : s.mem = some creds)
    (hauth : creds.auth_type = AuthType.OAuth a rt exp)
    (hexp : ¬ exp > now + 5 * 60)
    (hsrv : server { refresh_token := rt } = .ok wire)
    (hd : s.disk = some dcreds)
    (hdauth : dcreds.auth_type = AuthType.OAuth da drt dexp) :
    get_access_token server now s
      = (.ok wire.access_token,
         { mem := some { dcreds with
                           auth_type := AuthType.OAuth wire.access_token rt
                             (now + wire.expires_in),
                           updated_at := now },
           disk := some { dcreds with
                            auth_type := AuthType.OAuth wire.access_token rt
                              (now + wire.expires_in),
                            updated_at := now } }) := by
  simp only [get_access_token, hm, hauth]
  rw [if_neg hexp]
  simp [hsrv, decodeRefreshResponse, TokenStore.update_oauth_tokens, hd, hdauth]

/-- Witness for `refresh_reuses_prior_refresh_token` at the concrete refresh
exchange of the counterexample. -/
theorem refresh_reuses_prior_refresh_token_witness :
    get_access_token
        (fun _ => Except.ok ⟨⟨"u", "e", none, none, false, none, false⟩,
                             "a1", 3600, some "r1"⟩)
        1000
        ⟨some ⟨AuthType.OAuth "a0" "r0" 0, none, none, 0, 0⟩,
         some ⟨AuthType.OAuth "a0" "r0" 0, none, none, 0, 0⟩⟩
      = (.ok "a1",
         { mem := some ⟨AuthType.OAuth "a1" "r0" 4600, none, none, 0, 1000⟩,
           disk := some ⟨AuthType.OAuth "a1" "r0" 4600, none, none, 0, 1000⟩ }) :=
  refresh_reuses_prior_refresh_token
    (fun _ => Except.ok ⟨⟨"u", "e", none, none, false, none, false⟩,
                         "a1", 3600, some "r1"⟩)
    1000
    ⟨some ⟨AuthType.OAuth "a0" "r0" 0, none, none, 0, 0⟩,
     some ⟨AuthType.OAuth "a0" "r0" 0, none, none, 0, 0⟩⟩
    ⟨AuthType.OAuth "a0" "r0" 0, none, none, 0, 0⟩
    ⟨AuthType.OAuth "a0" "r0" 0, none, none, 0, 0⟩
    "a0" "r0" "a0" "r0" 0 0
    ⟨⟨"u", "e", none, none, false, none, false⟩, "a1", 3600, some "r1"⟩
    rfl rfl (by decide) rfl rfl rfl

/-- With a live command sender, the resubscription loop sends one
`Subscribe` command per registry entry, appended in registry order. -/
theorem resubscribeLoop_sender_true (subs : List (ChannelType × Uuid)) :
    ∀ sent, resubscribeLoop true sent subs
      = sent ++ subs.map (fun p => ClientMessage.Subscribe p.1 p.2) := by
  induction subs with
  | nil => intro sent; simp [resubscribeLoop]
  | cons p rest ih => intro sent; simp [resubscribeLoop, ih]

/-- Claim C6 counterexample: two `subscribe` calls for the same pair from a
connected state leave the registry with two entries for that pair; the next
successful `connect` (after a drop) then replays the pair TWICE — not
exactly once per pair as claimed. -/
theorem resubscribe_sends_duplicate_pair_twice :
    runOps true ⟨true, [], [], true⟩
        [SubOp.sub ChannelType.Analysis 1, SubOp.sub ChannelType.Analysis 1]
      = .ok ⟨true,
             [ClientMessage.Subscribe ChannelType.Analysis 1,
              ClientMessage.Subscribe ChannelType.Analysis 1],
             [(ChannelType.Analysis, 1), (ChannelType.Analysis, 1)], true⟩
    ∧ ProgressWebSocket.connect true
        (ProgressWebSocket.disconnect
          ⟨true,
           [ClientMessage.Subscribe ChannelType.Analysis 1,
            ClientMessage.Subscribe ChannelType.Analysis 1],
           [(ChannelType.Analysis, 1), (ChannelType.Analysis, 1)], true⟩)
      = .ok ⟨true,
             [ClientMessage.Subscribe ChannelType.Analysis 1,
              ClientMessage.Subscribe ChannelType.Analysis 1,
              ClientMessage.Subscribe ChannelType.Analysis 1,
              ClientMessage.Subscribe ChannelType.Analysis 1],
             [(ChannelType.Analysis, 1), (ChannelType.Analysis, 1)], true⟩ := by
  exact ⟨rfl, rfl⟩

/-- Claim C6 (amended): every successful `connect` — in particular every
successful reconnection — replays the registry by sending one `Subscribe`
command per registry ENTRY, in the registry's insertion order, leaving the
registry itself unchanged; a pair occurring in two entries is therefore
sent twice, once per entry. -/
theorem connect_replays_registry_in_order (s : WsState) :
    ∃ s', ProgressWebSocket.connect true s = .ok s'
      ∧ s'.sent = s.sent ++ s.subscriptions.map (fun p => ClientMessage.Subscribe p.1 p.2)
      ∧ s'.subscriptions = s.subscriptions := by
  refine ⟨ProgressWebSocket.resubscribe
    { s with is_connected := true, command_sender := true }, ?_, ?_, rfl⟩
  · simp [ProgressWebSocket.connect]
  · simp [ProgressWebSocket.resubscribe, resubscribeLoop_sender_true]

/-- Claim C9: the handler forwards an event exactly for a text frame that
parses as a `ServerMessage` with discriminator `Progress` and whose data
decodes as a `WebSocketMessage`; every other discriminator forwards
nothing; and a malformed text frame forwards nothing while leaving the
loop running and the connection flag untouched (the loop result over a
malformed frame followed by any tail equals the result over the tail
alone). -/
theorem progress_forwarding_iff :
    (∀ (c : Bool) (f : InboundFrame) (e : ProgressEvent),
        (handle_frame c f).1 = some e ↔
          ∃ m w, f = InboundFrame.text (some m)
            ∧ m.message_type = ServerMessageType.Progress
            ∧ m.data = some w ∧ w.event = e)
    ∧ (∀ (c : Bool) (rest : List InboundFrame),
        message_loop c (InboundFrame.text none :: rest) = message_loop c rest)
    ∧ (∀ c : Bool, handle_frame c (InboundFrame.text none)
        = (none, LoopAction.cont, c)) := by
  refine ⟨?_, ?_, fun c => rfl⟩
  · intro c f e
    constructor
    · intro h
      match f with
      | .text none => simp [handle_frame] at h
      | .text (some m) =>
        match hmt : m.message_type with
        | .Progress =>
          match hd : m.data with
          | some w =>
            refine ⟨m, w, rfl, hmt, hd, ?_⟩
            simp [handle_frame, hmt, hd] at h
            exact h
          | none => simp [handle_frame, hmt, hd] at h
        | .Connected | .Subscribed | .Unsubscribed | .Error | .Pong =>
          simp [handle_frame, hmt] at h
      | .close => simp [handle_frame] at h
      | .wsError => simp [handle_frame] at h
      | .streamEnd => simp [handle_frame] at h
      | .other => simp [handle_frame] at h
    · rintro ⟨m, w, rfl, hmt, hd, rfl⟩
      simp [handle_frame, hmt, hd]
  · intro c rest
    simp [message_loop, handle_frame]

/-- Claim C5: the claimed cleanup is the code's clear intent (the block is
headed "Clean up completed subscriptions"), but it does not happen: on a
`Complete` event for tracked entity 1 the loop sends the `Unsubscribe`
command and then self-deadlocks awaiting `active_subscriptions.write()`
while the `if let` scrutinee's read guard on the same lock is still held,
so entity 1 is NEVER removed from the active set and the later event for
entity 2 is never processed. -/
theorem terminal_cleanup_deadlocks :
    (ProgressTracker.process_one trackedTracker completeEvent1).2 = false
    ∧ (ProgressTracker.process_one trackedTracker completeEvent1).1.active_subscriptions 1
        = some ChannelType.Analysis
    ∧ ClientMessage.Unsubscribe ChannelType.Analysis 1
        ∈ (ProgressTracker.process_one trackedTracker completeEvent1).1.ws.sent
    ∧ (ProgressTracker.process_events trackedTracker [completeEvent1, uploadEvent2]).deadlocked
        = true
    ∧ (ProgressTracker.process_events trackedTracker [completeEvent1, uploadEvent2]).pending
        = [uploadEvent2] := by
  exact ⟨rfl, rfl, by decide, rfl, by decide⟩

/-- Claim C8: the per-id ordered event log is the spec's clear intent (its
acceptance example tracks an analysis and then reads its events), but with
entity 1 tracked the loop self-deadlocks the moment it stores the terminal
`Complete` event for 1: the delivered upload event for entity 2 is left
pending and never stored, so the reached state answers `get_events 2` with
`[]` although the claim requires the delivered `[uploadEvent2]` — and in
the running program the stuck task still holds the `events` write guard,
so a `get_events` call made after the deadlock does not return at all. -/
theorem event_log_after_terminal_deadlock :
    (ProgressTracker.process_events trackedTracker
        [analysisQueued1, analysisExtracting1, completeEvent1, uploadEvent2]).deadlocked
      = true
    ∧ (ProgressTracker.process_events trackedTracker
        [analysisQueued1, analysisExtracting1, completeEvent1, uploadEvent2]).pending
      = [uploadEvent2]
    ∧ ProgressTracker.get_events
        (ProgressTracker.process_events trackedTracker
          [analysisQueued1, analysisExtracting1, completeEvent1, uploadEvent2]).state 1
      = [analysisQueued1, analysisExtracting1, completeEvent1]
    ∧ ProgressTracker.get_events
        (ProgressTracker.process_events trackedTracker
          [analysisQueued1, analysisExtracting1, completeEvent1, uploadEvent2]).state 2
      = []
    ∧ [analysisQueued1, analysisExtracting1, completeEvent1, uploadEvent2].filter
        (fun e => e.correlationId = 2)
      = [uploadEvent2]
    ∧ ([] : List ProgressEvent) ≠ [uploadEvent2] := by
  exact ⟨rfl, by decide, rfl, rfl, by decide, by decide⟩

/-- In a connected state with a live sender, `subscribe` sends a command and
appends the pair to the registry unconditionally. -/
theorem subscribe_connected (s : WsState) (ct : ChannelType) (id : Uuid)
    (h1 : s.is_connected = true) (h2 : s.command_sender = true) :
    ProgressWebSocket.subscribe true s ct id
      = .ok { s with sent := s.sent ++ [ClientMessage.Subscribe ct id],
                     subscriptions := s.subscriptions ++ [(ct, id)] } := by
  simp [ProgressWebSocket.subscribe, h1, h2]

/-- Registry membership after `unsubscribe` with a live sender: exactly the
previous members other than the removed pair. -/
theorem mem_unsubscribe_subscriptions (s : WsState) (ct : ChannelType)
    (id : Uuid) (h2 : s.command_sender = true) (p : ChannelType × Uuid) :
    p ∈ (ProgressWebSocket.unsubscribe s ct id).subscriptions
      ↔ p ∈ s.subscriptions ∧ p ≠ (ct, id) := by
  simp [ProgressWebSocket.unsubscribe, h2, List.mem_filter, Prod.ext_iff]
  tauto

/-- Running a sequence of calls from a connected state with a live sender
always succeeds, and a pair is in the final registry exactly when the spec
fold says it is still active. -/
theorem runOps_active (ops : List SubOp) :
    ∀ (s : WsState), s.is_connected = true → s.command_sender = true →
    ∃ s', runOps true s ops = .ok s'
      ∧ s'.is_connected = true ∧ s'.command_sender = true
      ∧ ∀ (p : ChannelType × Uuid) (b : Bool),
          (p ∈ s.subscriptions ↔ b = true) →
          (p ∈ s'.subscriptions ↔ specActiveAfter p b ops = true) := by
  induction ops with
  | nil =>
    intro s h1 h2
    exact ⟨s, rfl, h1, h2, fun p b hb => by simpa [specActiveAfter] using hb⟩
  | cons op rest ih =>
    intro s h1 h2
    cases op with
    | sub ct id =>
      obtain ⟨s', hrun, hc1, hc2, hmem⟩ :=
        ih { s with sent := s.sent ++ [ClientMessage.Subscribe ct id],
                    subscriptions := s.subscriptions ++ [(ct, id)] } h1 h2
      refine ⟨s', ?_, hc1, hc2, ?_⟩
      · show (match ProgressWebSocket.subscribe true s ct id with
              | .error e => Except.error e
              | .ok s1 => runOps true s1 rest) = .ok s'
        rw [subscribe_connected s ct id h1 h2]
        exact hrun
      · intro p b hb
        have hstep : p ∈ s.subscriptions ++ [(ct, id)]
            ↔ ((if (ct, id) = p then true else b) = true) := by
          by_cases hpq : (ct, id) = p
          · simp [hpq, List.mem_append]
          · have hne : p ≠ (ct, id) := fun hh => hpq hh.symm
            simp [hpq, List.mem_append, hne, hb]
        have hres := hmem p (if (ct, id) = p then true else b) hstep
        simpa [specActiveAfter] using hres
    | unsub ct id =>
      have hflags : (ProgressWebSocket.unsubscribe s ct id).is_connected = true
          ∧ (ProgressWebSocket.unsubscribe s ct id).command_sender = true := by
        simp [ProgressWebSocket.unsubscribe, h2, h1]
      obtain ⟨s', hrun, hc1, hc2, hmem⟩ :=
        ih (ProgressWebSocket.unsubscribe s ct id) hflags.1 hflags.2
      refine ⟨s', hrun, hc1, hc2, ?_⟩
      intro p b hb
      have hstep : p ∈ (ProgressWebSocket.unsubscribe s ct id).subscriptions
          ↔ (if (ct, id) = p then false else b) = true := by
        rw [mem_unsubscribe_subscriptions s ct id h2 p]
        by_cases hpq : (ct, id) = p
        · simp [hpq.symm]
        · have : p ≠ (ct, id) := fun hh => hpq hh.symm
          simp [hpq, this, hb]
      have := hmem p (if (ct, id) = p then false else b) hstep
      simpa [specActiveAfter] using this

/-- Claim C3 counterexample: from a connected state with an empty registry,
subscribing twice to the same pair leaves TWO registry entries for it — a
duplicate add is an unconditional `Vec::push`, not a no-op. -/
theorem subscribe_duplicate_entry :
    runOps true ⟨true, [], [], true⟩
        [SubOp.sub ChannelType.Upload 3, SubOp.sub ChannelType.Upload 3]
      = .ok ⟨true,
             [ClientMessage.Subscribe ChannelType.Upload 3,
              ClientMessage.Subscribe ChannelType.Upload 3],
             [(ChannelType.Upload, 3), (ChannelType.Upload, 3)], true⟩
    ∧ ¬ List.Nodup [(ChannelType.Upload, 3), (ChannelType.Upload, 3)] := by
  exact ⟨rfl, by decide⟩

/-- Claim C3 (amended): over every sequence of subscribe / unsubscribe calls
from a connected state with a live sender, the registry agrees with the set
of still-active pairs AS A SET — a pair is present iff the last call naming
it was a subscribe — and unsubscribing a non-member leaves the registry
unchanged; but a duplicate subscribe appends a second entry (see the
counterexample), so the registry is a list that can repeat a still-active
pair, not a duplicate-free set. -/
theorem registry_membership_matches_active_set (s : WsState) (ops : List SubOp)
    (h1 : s.is_connected = true) (h2 : s.command_sender = true) :
    (∃ s', runOps true s ops = .ok s'
      ∧ ∀ p : ChannelType × Uuid,
          p ∈ s'.subscriptions
            ↔ specActiveAfter p (decide (p ∈ s.subscriptions)) ops = true)
    ∧ ∀ (ct : ChannelType) (id : Uuid), (ct, id) ∉ s.subscriptions →
        (ProgressWebSocket.unsubscribe s ct id).subscriptions = s.subscriptions := by
  constructor
  · obtain ⟨s', hrun, _, _, hmem⟩ := runOps_active ops s h1 h2
    exact ⟨s', hrun, fun p => hmem p (decide (p ∈ s.subscriptions)) (by simp)⟩
  · intro ct id hni
    simp only [ProgressWebSocket.unsubscribe, h2, if_true]
    rw [List.filter_eq_self]
    intro p hp
    have hne : p ≠ (ct, id) := fun hh => hni (hh ▸ hp)
    simp [Prod.ext_iff] at hne ⊢
    tauto

/-- Witness for `registry_membership_matches_active_set`: a connected state
holding one pair, followed by one subscribe and one unsubscribe. -/
theorem registry_membership_matches_active_set_witness :
    (∃ s', runOps true ⟨true, [], [(ChannelType.Upload, 5)], true⟩
            [SubOp.sub ChannelType.Analysis 2, SubOp.unsub ChannelType.Upload 5]
          = .ok s'
      ∧ ∀ p : ChannelType × Uuid,
          p ∈ s'.subscriptions
            ↔ specActiveAfter p
                (decide (p ∈ (⟨true, [], [(ChannelType.Upload, 5)], true⟩ : WsState).subscriptions))
                [SubOp.sub ChannelType.Analysis 2, SubOp.unsub ChannelType.Upload 5] = true)
    ∧ ∀ (ct : ChannelType) (id : Uuid),
        (ct, id) ∉ (⟨true, [], [(ChannelType.Upload, 5)], true⟩ : WsState).subscriptions →
        (ProgressWebSocket.unsubscribe ⟨true, [], [(ChannelType.Upload, 5)], true⟩ ct id).subscriptions
          = (⟨true, [], [(ChannelType.Upload, 5)], true⟩ : WsState).subscriptions :=
  registry_membership_matches_active_set ⟨true, [], [(ChannelType.Upload, 5)], true⟩
    [SubOp.sub ChannelType.Analysis 2, SubOp.unsub ChannelType.Upload 5] rfl rfl

/-- One atomic phase of a caller never increases the count of refresh
requests plus the caller's own still-pending request budget: a caller
appends at most one entry to `refreshLog`, exactly when it leaves the
`doRefresh` phase. -/
theorem callerStep_measure
    (server : Nat → RefreshRequest → Except String WireRefreshResponse)
    (now : Instant) (sh : SharedState) (pc : CallerPc) :
    (callerStep server now sh pc).1.refreshLog.length
        + (callerStep server now sh pc).2.pendingWeight
      ≤ sh.refreshLog.length + pc.pendingWeight := by
  cases pc with
  | start =>
    unfold callerStep
    cases hm : sh.auth.mem with
    | none => simp [hm, CallerPc.pendingWeight]
    | some creds =>
      simp only [hm]
      cases ha : creds.auth_type with
      | OAuth a rt exp =>
        simp only [ha]
        split <;> simp [CallerPc.pendingWeight]
      | ApiKey k n kp l4 =>
        simp only [ha]
        simp [CallerPc.pendingWeight]
  | doRefresh rt =>
    unfold callerStep
    dsimp only
    split <;> simp [CallerPc.pendingWeight]
  | store rt resp =>
    unfold callerStep
    dsimp only
    split <;> simp [CallerPc.pendingWeight]
  | done r => simp [callerStep, CallerPc.pendingWeight]

/-- Replacing the scheduled caller's program counter exchanges its weight in
the total: sum over `set i pc'` plus the old weight equals the old sum plus
the new weight. -/
theorem sum_weights_set (pcs : List CallerPc) :
    ∀ (i : Nat) (pc pc' : CallerPc), pcs[i]? = some pc →
    ((pcs.set i pc').map CallerPc.pendingWeight).sum + pc.pendingWeight
      = (pcs.map CallerPc.pendingWeight).sum + pc'.pendingWeight := by
  induction pcs with
  | nil => intro i pc pc' h; simp at h
  | cons x xs ih =>
    intro i pc pc' h
    cases i with
    | zero =>
      simp at h
      subst h
      show ((pc' :: xs).map CallerPc.pendingWeight).sum + x.pendingWeight
        = ((x :: xs).map CallerPc.pendingWeight).sum + pc'.pendingWeight
      simp only [List.map_cons, List.sum_cons]
      omega
    | succ n =>
      have h' : xs[n]? = some pc := by simpa using h
      have hres := ih n pc pc' h'
      show ((x :: xs.set n pc').map CallerPc.pendingWeight).sum + pc.pendingWeight
        = ((x :: xs).map CallerPc.pendingWeight).sum + pc'.pendingWeight
      simp only [List.map_cons, List.sum_cons]
      omega

/-- Unfolding equation of `runSched` on a non-empty schedule. -/
theorem runSched_cons
    (server : Nat → RefreshRequest → Except String WireRefreshResponse)
    (now : Instant) (i : Nat) (rest : List Nat)
    (sh : SharedState) (pcs : List CallerPc) :
    runSched server now (i :: rest) (sh, pcs)
      = match pcs[i]? with
        | none => runSched server now rest (sh, pcs)
        | some pc =>
          runSched server now rest
            ((callerStep server now sh pc).1,
             pcs.set i (callerStep server now sh pc).2) := rfl

/-- Along any schedule, the number of refresh requests issued plus the total
pending budget of all callers never grows. -/
theorem runSched_measure
    (server : Nat → RefreshRequest → Except String WireRefreshResponse)
    (now : Instant) (sched : List Nat) :
    ∀ (sh : SharedState) (pcs : List CallerPc),
    (runSched server now sched (sh, pcs)).1.refreshLog.length
        + (((runSched server now sched (sh, pcs)).2).map CallerPc.pendingWeight).sum
      ≤ sh.refreshLog.length + (pcs.map CallerPc.pendingWeight).sum := by
  induction sched with
  | nil => intro sh pcs; simp [runSched]
  | cons i rest ih =>
    intro sh pcs
    rw [runSched_cons]
    cases hget : pcs[i]? with
    | none => exact ih sh pcs
    | some pc =>
      dsimp only
      have h1 := ih (callerStep server now sh pc).1
        (pcs.set i (callerStep server now sh pc).2)
      have h2 := callerStep_measure server now sh pc
      have h3 := sum_weights_set pcs i pc (callerStep server now sh pc).2 hget
      omega

/-- Claim C1 counterexample: two callers both read the expired OAuth
credential under the read lock before either refreshes (schedule
`[0, 1, 0, 1]`); each then issues its own refresh request, so TWO refresh
requests reach the auth endpoint, both carrying the same refresh token
`r0`, refuting both "at most one refresh request is issued" and "no two
callers trigger independent refreshes with the same refresh token". -/
theorem two_callers_issue_two_refreshes :
    (runSched
        (fun n _ => Except.ok ⟨⟨"u", "e", none, none, false, none, false⟩,
                               if n = 0 then "a1" else "a2", 3600, none⟩)
        1000 [0, 1, 0, 1]
        (⟨⟨some ⟨AuthType.OAuth "a0" "r0" 0, none, none, 0, 0⟩,
           some ⟨AuthType.OAuth "a0" "r0" 0, none, none, 0, 0⟩⟩, []⟩,
         [CallerPc.start, CallerPc.start])).1.refreshLog
      = ["r0", "r0"] := by
  rfl

/-- Claim C1 (amended): refreshes are not serialized — `get_access_token`
drops the credentials read lock before the refresh HTTP call and takes no
other lock around it — so concurrent callers that all observe the
credential past the margin may each issue an independent refresh request
with the same refresh token; what holds is that each caller issues at most
one refresh request, so a group of `k` concurrent callers issues at most
`k` refresh requests along any interleaving. -/
theorem refresh_requests_le_callers
    (server : Nat → RefreshRequest → Except String WireRefreshResponse)
    (now : Instant) (auth0 : AuthState) (k : Nat) (sched : List Nat) :
    (runSched server now sched
        ({ auth := auth0, refreshLog := [] }, List.replicate k CallerPc.start)).1.refreshLog.length
      ≤ k := by
  have h := runSched_measure server now sched
    { auth := auth0, refreshLog := [] } (List.replicate k CallerPc.start)
  have hrep : ((List.replicate k CallerPc.start).map CallerPc.pendingWeight).sum = k := by
    simp [List.map_replicate, CallerPc.pendingWeight, List.sum_replicate]
  have h0 : ({ auth := auth0, refreshLog := [] } : SharedState).refreshLog.length = 0 := rfl
  omega

end Kanuni
